import Mathlib

/-!
Verification of the monthly ledger and archival engine of a zero-based
budgeting application (store CRUD, month-close protocol, export/import,
and the read-side aggregation functions), shallowly embedded from the
JavaScript source (`db/database.js`, `services/BudgetService.js`,
`utils/helpers.js`, `db/schema.js`).

Modelling conventions:
- JS numbers carrying money are modelled as `Rat` (the app manipulates
  decimal amounts with `+`, `-`, `*`, `/` only).
- IndexedDB object stores are modelled as lists of records; `db.get` is
  `List.find?` on the key, `db.put` replaces the record with the same key
  or appends, `db.add` appends (ids are freshly generated UUIDs),
  `getAllFromIndex`/`getAll` enumerate the list.
- `Date`-dependent values (`getCurrentMonth()`, `new Date().toISOString()`)
  are passed in explicitly as `nowMonth` / `nowISO` parameters.
- JS `throw` is modelled with `Except`: an operation either returns the
  updated store or an error and no store (IndexedDB transactions make the
  multi-collection writes of one operation atomic).
- JS falsiness of the empty string (`s || dflt`) is modelled by `jsOrStr`;
  absent object fields are modelled by `Option`.
-/

namespace Budget

/-- Splits a character list at every occurrence of the separator, JS
`String.prototype.split` style: `"".split(sep)` is `[""]`, separators at
the ends produce empty fragments. -/
def splitChars (sep : Char) : List Char → List (List Char)
  | [] => [[]]
  | c :: rest =>
    if c = sep then [] :: splitChars sep rest
    else
      match splitChars sep rest with
      | g :: gs => (c :: g) :: gs
      | [] => [[c]]

/-- JS `s.split(sep)` for a one-character separator. -/
def jsSplit (sep : Char) (s : String) : List String :=
  (splitChars sep s.data).map String.mk

/-- JS `s.slice(0, n)`. -/
def jsSlice (n : Nat) (s : String) : String :=
  String.mk (s.data.take n)

/-- JS `s || dflt` for strings: the empty string is falsy. -/
def jsOrStr (s dflt : String) : String :=
  if s = "" then dflt else s

/-- JS `s || null` for strings: maps the empty string to `null`. -/
def jsOrNone (o : Option String) : Option String :=
  match o with
  | some s => if s = "" then none else some s
  | none => none

/-- JS `s?.trim() || ''` applied to an optional string field. -/
def jsTrimOrEmpty (o : Option String) : String :=
  (o.map String.trim).getD ""

/-- Numeric value of a decimal-digit character. -/
def digitVal (c : Char) : Nat := c.toNat - '0'.toNat

/-- JS `Number(s)` restricted to the strings of decimal digits this code
feeds it (the year and month fragments of a `YYYY-MM` key). -/
def jsNumberNat (s : String) : Nat :=
  s.data.foldl (fun acc c => acc * 10 + digitVal c) 0

/-- JS `s.padStart(2, '0')`. -/
def padStart2 (s : String) : String :=
  if 2 ≤ s.length then s
  else if s.length = 1 then "0" ++ s
  else "00" ++ s

/-- The next calendar month computed by `closeMonth` (database.js:779-782):
`const [year, monthNum] = targetMonth.split('-').map(Number)` followed by
the rollover template. -/
def nextMonth (targetMonth : String) : String :=
  let parts := (jsSplit '-' targetMonth).map jsNumberNat
  let year := parts.getD 0 0
  let monthNum := parts.getD 1 0
  if monthNum = 12 then toString (year + 1) ++ "-01"
  else toString year ++ "-" ++ padStart2 (toString (monthNum + 1))

/-- JS `now.split('T')[0]` on an ISO timestamp (database.js:476). -/
def isoDatePart (nowISO : String) : String :=
  (jsSplit 'T' nowISO).headD ""

/-- The `month` value `createExpense`/`updateExpense` derive from a date
string: `const [year, month] = date.split('-')` then `` `${year}-${month}` ``
(database.js:477,485 and 508-509).  A fragment missing from the
destructuring is JS `undefined` and renders as the string `"undefined"`. -/
def deriveMonth (date : String) : String :=
  match jsSplit '-' date with
  | y :: m :: _ => y ++ "-" ++ m
  | [y] => y ++ "-undefined"
  | [] => "undefined-undefined"

/-- A well-formed `YYYY-MM-DD` calendar date string: a 4-character year and
a 2-character month, neither containing a dash, each followed by a dash. -/
def validDate (d : String) : Prop :=
  ∃ y m r, d.data = y ++ '-' :: (m ++ '-' :: r)
    ∧ y.length = 4 ∧ m.length = 2 ∧ '-' ∉ y ∧ '-' ∉ m

-- ==========================================
-- Data model (db/schema.js record shapes, as the CRUD layer writes them)
-- ==========================================

/-- The Settings singleton record (key `"main"` of the settings store). -/
structure Settings where
  id : String
  monthlyIncome : Rat
  currency : String
  currentMonth : String
  createdAt : String
  updatedAt : String
deriving DecidableEq, Repr

/-- A FixedExpense record as `createFixedExpense` writes it. -/
structure FixedExpense where
  id : String
  name : String
  amount : Rat
  createdAt : String
  updatedAt : String
deriving DecidableEq, Repr

/-- A Category record as `createCategory` writes it. -/
structure Category where
  id : String
  name : String
  budgetLimit : Rat
  color : String
  icon : Option String
  createdAt : String
  updatedAt : String
deriving DecidableEq, Repr

/-- An Expense record as `createExpense` writes it. -/
structure Expense where
  id : String
  categoryId : String
  description : String
  amount : Rat
  date : String
  month : String
  createdAt : String
  updatedAt : String
deriving DecidableEq, Repr

/-- A per-category snapshot stored inside a MonthlyArchive
(`{...cat, spent, remaining, percentage}`, database.js:730-739). -/
structure CategorySnapshot where
  id : String
  name : String
  budgetLimit : Rat
  color : String
  icon : Option String
  createdAt : String
  updatedAt : String
  spent : Rat
  remaining : Rat
  percentage : Rat
deriving DecidableEq, Repr

/-- The `summary` object of a MonthlyArchive (database.js:746-753). -/
structure ArchiveSummary where
  monthlyIncome : Rat
  totalFixedExpenses : Rat
  totalBudgeted : Rat
  totalSpent : Rat
  totalSaved : Rat
  currency : String
deriving DecidableEq, Repr

/-- A MonthlyArchive record (database.js:742-757). -/
structure MonthlyArchive where
  id : String
  month : String
  closedAt : String
  summary : ArchiveSummary
  fixedExpenses : List FixedExpense
  categories : List CategorySnapshot
  expenses : List Expense
deriving DecidableEq, Repr

/-- The five IndexedDB object stores.  `settings` holds the record at key
`"main"` when present. -/
structure Store where
  settings : Option Settings
  fixedExpenses : List FixedExpense
  categories : List Category
  expenses : List Expense
  monthlyArchives : List MonthlyArchive
deriving DecidableEq, Repr

/-- Errors the store operations surface (`throw` in the JS source):
`notFound` for updates of a missing record, `alreadyClosed` for a
re-closed month, `invalidBackup` for a malformed import document,
`dataError` for an IndexedDB `put` without its key (settings record
missing when `updateSettings` runs). -/
inductive StoreErr where
  | notFound
  | alreadyClosed
  | invalidBackup
  | dataError
deriving DecidableEq, Repr

/-- IndexedDB `put`: replace the record carrying the same key, or append. -/
def putKeyed {α : Type} (key : α → String) (l : List α) (x : α) : List α :=
  if l.any (fun y => key y == key x) then
    l.map (fun y => if key y == key x then x else y)
  else l ++ [x]

/-- Sum of expense amounts, `expenses.reduce((sum, e) => sum + e.amount, 0)`. -/
def sumAmounts (l : List Expense) : Rat :=
  l.foldl (fun sum e => sum + e.amount) 0

/-- Sum of fixed-expense amounts. -/
def sumFixedAmounts (l : List FixedExpense) : Rat :=
  l.foldl (fun sum e => sum + e.amount) 0

/-- Sum of category budget limits. -/
def sumBudgetLimits (l : List Category) : Rat :=
  l.foldl (fun sum c => sum + c.budgetLimit) 0

/-- JS `settings?.monthlyIncome || 0` (the income is a number, so `|| 0`
only replaces an absent record). -/
def settingsIncome (o : Option Settings) : Rat :=
  match o with
  | some st => st.monthlyIncome
  | none => 0

/-- JS `settings?.currency || 'Q'`. -/
def settingsCurrency (o : Option Settings) : String :=
  match o with
  | some st => jsOrStr st.currency "Q"
  | none => "Q"

-- ==========================================
-- Store operations (db/database.js)
-- ==========================================

/-- Default settings written by `initializeSettings` on first access
(database.js:259-273, spreading `SETTINGS_SCHEMA` from schema.js). -/
def defaultSettings (nowMonth nowISO : String) : Settings :=
  { id := "main", monthlyIncome := 0, currency := "Q",
    currentMonth := nowMonth, createdAt := nowISO, updatedAt := nowISO }

/-- `initializeSettings`: create the default settings record if the
singleton is absent (runs when the database connection is first opened). -/
def ensureSettings (s : Store) (nowMonth nowISO : String) : Store :=
  match s.settings with
  | some _ => s
  | none => { s with settings := some (defaultSettings nowMonth nowISO) }

/-- `getSettings` (database.js:282-285). -/
def getSettings (s : Store) : Option Settings := s.settings

/-- Patch accepted by `updateSettings`; absent fields leave the record
unchanged (`{...current, ...updates}`). -/
structure SettingsPatch where
  monthlyIncome : Option Rat := none
  currency : Option String := none
  currentMonth : Option String := none
deriving Repr

/-- `updateSettings` (database.js:290-302).  When the settings record is
missing, the merged object has no `id` and the keyed `put` rejects it
(IndexedDB DataError), surfaced here as `dataError`. -/
def updateSettings (s : Store) (nowISO : String) (p : SettingsPatch) :
    Except StoreErr (Store × Settings) :=
  match s.settings with
  | none => .error .dataError
  | some cur =>
    let updated : Settings :=
      { id := cur.id,
        monthlyIncome := p.monthlyIncome.getD cur.monthlyIncome,
        currency := p.currency.getD cur.currency,
        currentMonth := p.currentMonth.getD cur.currentMonth,
        createdAt := cur.createdAt,
        updatedAt := nowISO }
    .ok ({ s with settings := some updated }, updated)

/-- Input of `createFixedExpense` (database.js:319-333). -/
structure FixedExpenseInput where
  name : Option String := none
  amount : Rat := 0
deriving Repr

/-- `createFixedExpense`: builds the record and `db.add`s it. -/
def createFixedExpense (s : Store) (nowISO newId : String)
    (data : FixedExpenseInput) : Store × FixedExpense :=
  let expense : FixedExpense :=
    { id := newId, name := jsTrimOrEmpty data.name, amount := data.amount,
      createdAt := nowISO, updatedAt := nowISO }
  ({ s with fixedExpenses := s.fixedExpenses ++ [expense] }, expense)

/-- Patch accepted by `updateFixedExpense`. -/
structure FixedExpensePatch where
  name : Option String := none
  amount : Option Rat := none
deriving Repr

/-- `updateFixedExpense` (database.js:338-354): `NotFound` when no record
carries the id, otherwise merge, stamp `updatedAt` and `put`. -/
def updateFixedExpense (s : Store) (nowISO id : String)
    (p : FixedExpensePatch) : Except StoreErr (Store × FixedExpense) :=
  match s.fixedExpenses.find? (fun e => e.id == id) with
  | none => .error .notFound
  | some cur =>
    let updated : FixedExpense :=
      { id := cur.id, name := p.name.getD cur.name,
        amount := p.amount.getD cur.amount,
        createdAt := cur.createdAt, updatedAt := nowISO }
    .ok ({ s with fixedExpenses := putKeyed FixedExpense.id s.fixedExpenses updated }, updated)

/-- `deleteFixedExpense` (database.js:359-362), idempotent keyed delete. -/
def deleteFixedExpense (s : Store) (id : String) : Store :=
  { s with fixedExpenses := s.fixedExpenses.filter (fun e => !(e.id == id)) }

/-- `getCategory` (database.js:379-382), keyed `db.get`. -/
def getCategory (s : Store) (id : String) : Option Category :=
  s.categories.find? (fun c => c.id == id)

/-- Input of `createCategory` (database.js:387-403). -/
structure CategoryInput where
  name : Option String := none
  budgetLimit : Rat := 0
  color : Option String := none
  icon : Option String := none
deriving Repr

/-- `createCategory`: builds the record (`color` defaulting through `||`,
`icon` through `|| null`) and `db.add`s it. -/
def createCategory (s : Store) (nowISO newId : String)
    (data : CategoryInput) : Store × Category :=
  let category : Category :=
    { id := newId, name := jsTrimOrEmpty data.name,
      budgetLimit := data.budgetLimit,
      color := jsOrStr (data.color.getD "") "#00d4aa",
      icon := jsOrNone data.icon,
      createdAt := nowISO, updatedAt := nowISO }
  ({ s with categories := s.categories ++ [category] }, category)

/-- Patch accepted by `updateCategory`. -/
structure CategoryPatch where
  name : Option String := none
  budgetLimit : Option Rat := none
  color : Option String := none
  icon : Option (Option String) := none
deriving Repr

/-- `updateCategory` (database.js:408-424). -/
def updateCategory (s : Store) (nowISO id : String)
    (p : CategoryPatch) : Except StoreErr (Store × Category) :=
  match s.categories.find? (fun c => c.id == id) with
  | none => .error .notFound
  | some cur =>
    let updated : Category :=
      { id := cur.id, name := p.name.getD cur.name,
        budgetLimit := p.budgetLimit.getD cur.budgetLimit,
        color := p.color.getD cur.color,
        icon := p.icon.getD cur.icon,
        createdAt := cur.createdAt, updatedAt := nowISO }
    .ok ({ s with categories := putKeyed Category.id s.categories updated }, updated)

/-- `deleteCategory` (database.js:429-446): one `readwrite` transaction over
the categories and expenses stores deletes every expense whose
`categoryId` index key equals the id, then the category itself. -/
def deleteCategory (s : Store) (id : String) : Store :=
  { s with
    categories := s.categories.filter (fun c => !(c.id == id)),
    expenses := s.expenses.filter (fun e => !(e.categoryId == id)) }

/-- `getExpensesForMonth` (database.js:455-459): index lookup on `month`,
target defaulting through `month || getCurrentMonth()`. -/
def getExpensesForMonth (s : Store) (nowMonth : String)
    (month : Option String) : List Expense :=
  let targetMonth := jsOrStr (month.getD "") nowMonth
  s.expenses.filter (fun e => e.month == targetMonth)

/-- `getExpensesByCategory` (database.js:464-468). -/
def getExpensesByCategory (s : Store) (nowMonth categoryId : String)
    (month : Option String) : List Expense :=
  (getExpensesForMonth s nowMonth month).filter (fun e => e.categoryId == categoryId)

/-- Input of `createExpense` (database.js:473-492). -/
structure ExpenseInput where
  categoryId : String := ""
  description : Option String := none
  amount : Rat := 0
  date : Option String := none
deriving Repr

/-- The date `createExpense` stamps on the record:
`data.date || now.split('T')[0]`. -/
def effectiveExpenseDate (nowISO : String) (d : Option String) : String :=
  jsOrStr (d.getD "") (isoDatePart nowISO)

/-- `createExpense`: derives `month` from the date and `db.add`s the record. -/
def createExpense (s : Store) (nowISO newId : String)
    (data : ExpenseInput) : Store × Expense :=
  let expenseDate := effectiveExpenseDate nowISO data.date
  let expense : Expense :=
    { id := newId, categoryId := data.categoryId,
      description := jsTrimOrEmpty data.description,
      amount := data.amount,
      date := expenseDate,
      month := deriveMonth expenseDate,
      createdAt := nowISO, updatedAt := nowISO }
  ({ s with expenses := s.expenses ++ [expense] }, expense)

/-- Patch accepted by `updateExpense`; a `month` supplied here is spread in
but then overwritten by the recomputed value (database.js:512-515). -/
structure ExpensePatch where
  categoryId : Option String := none
  description : Option String := none
  amount : Option Rat := none
  date : Option String := none
  month : Option String := none
deriving Repr

/-- `updateExpense` (database.js:497-521): `NotFound` when the id is
absent; `month` is recomputed from the patched date only when the patch
carries a truthy `date` (`if (updates.date)`), and any `month` in the
patch is overridden. -/
def updateExpense (s : Store) (nowISO id : String)
    (p : ExpensePatch) : Except StoreErr (Store × Expense) :=
  match s.expenses.find? (fun e => e.id == id) with
  | none => .error .notFound
  | some cur =>
    let month :=
      match p.date with
      | some d => if d = "" then cur.month else deriveMonth d
      | none => cur.month
    let updated : Expense :=
      { id := cur.id,
        categoryId := p.categoryId.getD cur.categoryId,
        description := p.description.getD cur.description,
        amount := p.amount.getD cur.amount,
        date := p.date.getD cur.date,
        month := month,
        createdAt := cur.createdAt, updatedAt := nowISO }
    .ok ({ s with expenses := putKeyed Expense.id s.expenses updated }, updated)

/-- `deleteExpense` (database.js:526-529). -/
def deleteExpense (s : Store) (id : String) : Store :=
  { s with expenses := s.expenses.filter (fun e => !(e.id == id)) }

/-- `getAllExpenses` (database.js:801-804). -/
def getAllExpenses (s : Store) : List Expense := s.expenses

/-- `getArchive` (database.js:684-687), keyed `db.get` on the archive id. -/
def getArchive (s : Store) (month : String) : Option MonthlyArchive :=
  s.monthlyArchives.find? (fun a => a.id == month)

/-- `deleteArchive` (database.js:793-796). -/
def deleteArchive (s : Store) (month : String) : Store :=
  { s with monthlyArchives := s.monthlyArchives.filter (fun a => !(a.id == month)) }

-- ==========================================
-- Month-close protocol (database.js:705-787)
-- ==========================================

/-- The per-category snapshot built by `closeMonth` (database.js:730-739):
the category spread together with `spent`, `remaining` and a percentage
computed as `budgetLimit > 0 ? spent / budgetLimit * 100 : 0` — with no
clamp. -/
def snapshotCategory (expenses : List Expense) (cat : Category) : CategorySnapshot :=
  let catExpenses := expenses.filter (fun e => e.categoryId == cat.id)
  let spent := sumAmounts catExpenses
  { id := cat.id, name := cat.name, budgetLimit := cat.budgetLimit,
    color := cat.color, icon := cat.icon,
    createdAt := cat.createdAt, updatedAt := cat.updatedAt,
    spent := spent,
    remaining := cat.budgetLimit - spent,
    percentage := if 0 < cat.budgetLimit then spent / cat.budgetLimit * 100 else 0 }

/-- The archive record `closeMonth` assembles (database.js:714-757) from a
consistent read of settings, fixed expenses, categories and the target
month's expenses. -/
def buildArchive (s : Store) (targetMonth nowISO : String) : MonthlyArchive :=
  let expenses := s.expenses.filter (fun e => e.month == targetMonth)
  let totalFixedExpenses := sumFixedAmounts s.fixedExpenses
  let totalBudgeted := sumBudgetLimits s.categories
  let totalSpent := sumAmounts expenses
  let monthlyIncome := settingsIncome s.settings
  { id := targetMonth, month := targetMonth, closedAt := nowISO,
    summary :=
      { monthlyIncome := monthlyIncome,
        totalFixedExpenses := totalFixedExpenses,
        totalBudgeted := totalBudgeted,
        totalSpent := totalSpent,
        totalSaved := monthlyIncome - totalFixedExpenses - totalSpent,
        currency := settingsCurrency s.settings },
    fixedExpenses := s.fixedExpenses,
    categories := s.categories.map (snapshotCategory expenses),
    expenses := expenses }

/-- `closeMonth` (database.js:705-787).  Fails with `alreadyClosed` before
touching anything when an archive for the target month exists; otherwise
one transaction `put`s the archive and deletes every expense of the
month, and afterwards — only when the target equals the **wall-clock**
current month `getCurrentMonth()` — `updateSettings` advances
`currentMonth` to the next calendar month.  In the corner where that
update runs with no settings record, the JS `put` throws after the
archive transaction already committed; the model surfaces `dataError`
(no claim touches that state). -/
def closeMonth (s : Store) (nowMonth nowISO : String)
    (month : Option String) : Except StoreErr (Store × MonthlyArchive) :=
  let targetMonth := jsOrStr (month.getD "") nowMonth
  match getArchive s targetMonth with
  | some _ => .error .alreadyClosed
  | none =>
    let archive := buildArchive s targetMonth nowISO
    let s2 : Store :=
      { s with
        monthlyArchives := putKeyed MonthlyArchive.id s.monthlyArchives archive,
        expenses := s.expenses.filter (fun e => !(e.month == targetMonth)) }
    if targetMonth = nowMonth then
      match s.settings with
      | some st =>
        let advanced : Settings :=
          { st with currentMonth := nextMonth targetMonth, updatedAt := nowISO }
        .ok ({ s2 with settings := some advanced }, archive)
      | none => .error .dataError
    else .ok (s2, archive)

-- ==========================================
-- Export / import (database.js:590-662)
-- ==========================================

/-- The `data` object of a backup document; absent collections are
tolerated by `importData` through `|| []` and `if (settings)`. -/
structure BackupData where
  settings : Option Settings := none
  fixedExpenses : Option (List FixedExpense) := none
  categories : Option (List Category) := none
  expenses : Option (List Expense) := none
  monthlyArchives : Option (List MonthlyArchive) := none
deriving Repr

/-- A backup document; `data := none` models a document without the `data`
key, which `importData` rejects. -/
structure Backup where
  version : Nat := 3
  exportedAt : String := ""
  appName : String := ""
  data : Option BackupData := none
deriving Repr

/-- `exportData` (database.js:590-613): snapshots all five collections
(all months' expenses, all archives) under version `DB_VERSION = 3`. -/
def exportData (s : Store) (nowISO : String) : Backup :=
  { version := 3, exportedAt := nowISO, appName := "Presupuesto Base Cero",
    data := some
      { settings := s.settings,
        fixedExpenses := some s.fixedExpenses,
        categories := some s.categories,
        expenses := some s.expenses,
        monthlyArchives := some s.monthlyArchives } }

/-- `importData` (database.js:619-662): reject a document without `data`;
otherwise one transaction clears every collection and `put`s the
document's records back (settings only when present, collections
defaulting to `[]`, archives since the store exists at `DB_VERSION 3`). -/
def importData (_s : Store) (b : Backup) : Except StoreErr Store :=
  match b.data with
  | none => .error .invalidBackup
  | some d =>
    let cleared : Store :=
      { settings := none, fixedExpenses := [], categories := [],
        expenses := [], monthlyArchives := [] }
    let withSettings : Store :=
      match d.settings with
      | some st => { cleared with settings := some st }
      | none => cleared
    .ok { withSettings with
          fixedExpenses := (d.fixedExpenses.getD []).foldl (putKeyed FixedExpense.id) [],
          categories := (d.categories.getD []).foldl (putKeyed Category.id) [],
          expenses := (d.expenses.getD []).foldl (putKeyed Expense.id) [],
          monthlyArchives := (d.monthlyArchives.getD []).foldl (putKeyed MonthlyArchive.id) [] }

-- ==========================================
-- Aggregation engine (utils/helpers.js, services/BudgetService.js)
-- ==========================================

/-- `calculatePercentage` (helpers.js:100-104): percentage clamped to
[0, 100], with a non-positive total yielding 0. -/
def calculatePercentage (value total : Rat) : Rat :=
  if total ≤ 0 then 0 else min 100 (max 0 (value / total * 100))

/-- Modelled from the spec (refinement reference, §4.2): the percentage
formula the spec prescribes throughout, `clamp(0, 100, value/total*100)`
with `total ≤ 0 → 0`. -/
def specClampPercentage (value total : Rat) : Rat :=
  if total ≤ 0 then 0 else max 0 (min 100 (value / total * 100))

/-- Result record of `getBudgetOverview` (BudgetService.js:38-53). -/
structure BudgetOverview where
  monthlyIncome : Rat
  totalFixedExpenses : Rat
  totalBudgeted : Rat
  totalSpent : Rat
  availableForBudget : Rat
  remainingBudget : Rat
  unassigned : Rat
  realAvailable : Rat
  currency : String
  currentMonth : String
  fixedExpensesPercent : Rat
  budgetedPercent : Rat
  spentPercent : Rat
deriving DecidableEq, Repr

/-- `getBudgetOverview` (BudgetService.js:13-54).  It takes no target-month
parameter: the expense total always comes from
`db.getExpensesForMonth()` called with no argument, i.e. the wall-clock
current month. -/
def getBudgetOverview (s : Store) (nowMonth : String) : BudgetOverview :=
  let expenses := getExpensesForMonth s nowMonth none
  let monthlyIncome := settingsIncome s.settings
  let totalFixedExpenses := sumFixedAmounts s.fixedExpenses
  let totalBudgeted := sumBudgetLimits s.categories
  let totalSpent := sumAmounts expenses
  let availableForBudget := monthlyIncome - totalFixedExpenses
  { monthlyIncome := monthlyIncome,
    totalFixedExpenses := totalFixedExpenses,
    totalBudgeted := totalBudgeted,
    totalSpent := totalSpent,
    availableForBudget := availableForBudget,
    remainingBudget := totalBudgeted - totalSpent,
    unassigned := availableForBudget - totalBudgeted,
    realAvailable := monthlyIncome - totalFixedExpenses - totalSpent,
    currency := settingsCurrency s.settings,
    currentMonth :=
      match s.settings with
      | some st => jsOrStr st.currentMonth nowMonth
      | none => nowMonth,
    fixedExpensesPercent := calculatePercentage totalFixedExpenses monthlyIncome,
    budgetedPercent := calculatePercentage totalBudgeted availableForBudget,
    spentPercent := calculatePercentage totalSpent totalBudgeted }

/-- Result record of `getCategoryWithSpending` (BudgetService.js:73-79):
the category spread plus spending data and the expense list. -/
structure CategoryDetail where
  id : String
  name : String
  budgetLimit : Rat
  color : String
  icon : Option String
  createdAt : String
  updatedAt : String
  spent : Rat
  remaining : Rat
  percentage : Rat
  expenses : List Expense
deriving DecidableEq, Repr

/-- Stable insertion of an expense into a date-descending list, modelling
`expenses.sort((a, b) => new Date(b.date) - new Date(a.date))` (ISO date
strings compare like their dates). -/
def insertByDateDesc (e : Expense) : List Expense → List Expense
  | [] => [e]
  | x :: xs => if x.date < e.date then e :: x :: xs else x :: insertByDateDesc e xs

/-- Date-descending insertion sort of an expense list. -/
def sortByDateDesc (l : List Expense) : List Expense :=
  l.foldr insertByDateDesc []

/-- `getCategoryWithSpending` (BudgetService.js:61-80).  It takes no
target-month parameter either: the expenses come from
`db.getExpensesByCategory(categoryId)`, hence the wall-clock current
month.  Returns `none` when no category carries the id. -/
def getCategoryWithSpending (s : Store) (nowMonth categoryId : String) :
    Option CategoryDetail :=
  let expenses := getExpensesByCategory s nowMonth categoryId none
  match getCategory s categoryId with
  | none => none
  | some category =>
    let spent := sumAmounts expenses
    some
      { id := category.id, name := category.name,
        budgetLimit := category.budgetLimit, color := category.color,
        icon := category.icon, createdAt := category.createdAt,
        updatedAt := category.updatedAt,
        spent := spent,
        remaining := category.budgetLimit - spent,
        percentage := calculatePercentage spent category.budgetLimit,
        expenses := sortByDateDesc expenses }

/-- Result record of `getAllCategoriesWithSpending` (BudgetService.js:107-113). -/
structure CategoryWithSpending where
  id : String
  name : String
  budgetLimit : Rat
  color : String
  icon : Option String
  createdAt : String
  updatedAt : String
  spent : Rat
  remaining : Rat
  percentage : Rat
  expenseCount : Nat
deriving DecidableEq, Repr

/-- `getAllCategoriesWithSpending` (BudgetService.js:86-115): one pass over
the wall-clock month's expenses grouped by `categoryId` (the group of a
category is exactly the month's expenses referencing it, in order), then
a map over the categories.  No target-month parameter. -/
def getAllCategoriesWithSpending (s : Store) (nowMonth : String) :
    List CategoryWithSpending :=
  let expenses := getExpensesForMonth s nowMonth none
  s.categories.map (fun category =>
    let categoryExpenses := expenses.filter (fun e => e.categoryId == category.id)
    let spent := sumAmounts categoryExpenses
    { id := category.id, name := category.name,
      budgetLimit := category.budgetLimit, color := category.color,
      icon := category.icon, createdAt := category.createdAt,
      updatedAt := category.updatedAt,
      spent := spent,
      remaining := category.budgetLimit - spent,
      percentage := calculatePercentage spent category.budgetLimit,
      expenseCount := categoryExpenses.length })

/-- Item of `getCategoryDistribution` (BudgetService.js:174-179). -/
structure DistributionItem where
  name : String
  value : Rat
  color : String
  percentage : Rat
deriving DecidableEq, Repr

/-- `getCategoryDistribution` (BudgetService.js:169-180): categories with
positive spending only.  No target-month parameter. -/
def getCategoryDistribution (s : Store) (nowMonth : String) :
    List DistributionItem :=
  ((getAllCategoriesWithSpending s nowMonth).filter (fun c => decide (0 < c.spent))).map
    (fun c => { name := c.name, value := c.spent, color := c.color,
                percentage := c.percentage })

/-- Item of `getBudgetVsActual` (BudgetService.js:189-194). -/
structure BudgetVsActualItem where
  name : String
  budget : Rat
  actual : Rat
  color : String
deriving DecidableEq, Repr

/-- `getBudgetVsActual` (BudgetService.js:186-195): every category mapped
to budget/actual.  No target-month parameter. -/
def getBudgetVsActual (s : Store) (nowMonth : String) :
    List BudgetVsActualItem :=
  (getAllCategoriesWithSpending s nowMonth).map
    (fun c => { name := c.name, budget := c.budgetLimit, actual := c.spent,
                color := c.color })

-- ==========================================
-- Derived runners and result shapes used by the theorems
-- ==========================================

/-- The store a caller observes after `closeMonth`: the returned store on
success, the untouched input store when the call throws (the
`alreadyClosed` throw at database.js:711 precedes every write). -/
def closeMonthRun (s : Store) (nowMonth nowISO : String)
    (month : Option String) : Store :=
  match closeMonth s nowMonth nowISO month with
  | .ok (s2, _) => s2
  | .error _ => s

/-- The store a successful `closeMonth` returns, spelled out: archive
appended, the month's expenses purged, and — exactly when the closed
month is the wall-clock current month — `currentMonth` advanced. -/
def closeMonthStore (s : Store) (st : Settings) (nowMonth nowISO m : String) : Store :=
  { s with
    monthlyArchives := s.monthlyArchives ++ [buildArchive s m nowISO],
    expenses := s.expenses.filter (fun e => !(e.month == m)),
    settings := some (if m = nowMonth then
      { st with currentMonth := nextMonth m, updatedAt := nowISO } else st) }

-- ==========================================
-- Concrete fixtures (used by witnesses and counterexamples)
-- ==========================================

/-- A settings record with the spec's running example income of 5000. -/
def fxSettings (cm : String) : Settings :=
  { id := "main", monthlyIncome := 5000, currency := "Q",
    currentMonth := cm, createdAt := "t0", updatedAt := "t0" }

/-- A fixed expense of 1500 (the spec's running example). -/
def fxRent : FixedExpense :=
  { id := "f1", name := "Rent", amount := 1500, createdAt := "t0", updatedAt := "t0" }

/-- The `"Food"` category with limit 1000 (the spec's running example). -/
def fxFood : Category :=
  { id := "c1", name := "Food", budgetLimit := 1000, color := "#00d4aa",
    icon := none, createdAt := "t0", updatedAt := "t0" }

/-- An expense of 800 in `"2024-03"` (the spec's running example). -/
def fxExp800 : Expense :=
  { id := "e1", categoryId := "c1", description := "groceries", amount := 800,
    date := "2024-03-15", month := "2024-03", createdAt := "t0", updatedAt := "t0" }

/-- The spec's running-example store: income 5000, fixed 1500, `"Food"`
limit 1000 with 800 spent in `"2024-03"`. -/
def fxStore : Store :=
  { settings := some (fxSettings "2024-03"), fixedExpenses := [fxRent],
    categories := [fxFood], expenses := [fxExp800], monthlyArchives := [] }

/-- The running-example store in December (`currentMonth = "2024-12"`). -/
def fxStoreDec : Store :=
  { settings := some (fxSettings "2024-12"), fixedExpenses := [fxRent],
    categories := [fxFood], expenses := [], monthlyArchives := [] }

/-- An (empty) archive record for `"2024-03"`. -/
def fxArchMar : MonthlyArchive :=
  { id := "2024-03", month := "2024-03", closedAt := "t0",
    summary := { monthlyIncome := 0, totalFixedExpenses := 0, totalBudgeted := 0,
                 totalSpent := 0, totalSaved := 0, currency := "Q" },
    fixedExpenses := [], categories := [], expenses := [] }

/-- A store in which `"2024-03"` is already archived. -/
def fxStoreClosed : Store :=
  { fxStore with monthlyArchives := [fxArchMar] }

/-- A category with budget limit 0. -/
def fxCatZero : Category :=
  { id := "c2", name := "Misc", budgetLimit := 0, color := "#6c5ce7",
    icon := none, createdAt := "t0", updatedAt := "t0" }

/-- A category with budget limit 100. -/
def fxCat100 : Category :=
  { id := "c3", name := "Coffee", budgetLimit := 100, color := "#fd79a8",
    icon := none, createdAt := "t0", updatedAt := "t0" }

/-- An expense of 50 against the zero-limit category in `"2024-03"`. -/
def fxExp50 : Expense :=
  { id := "e2", categoryId := "c2", description := "", amount := 50,
    date := "2024-03-10", month := "2024-03", createdAt := "t0", updatedAt := "t0" }

/-- An expense of 150 against the 100-limit category in `"2024-03"`. -/
def fxExp150 : Expense :=
  { id := "e3", categoryId := "c3", description := "", amount := 150,
    date := "2024-03-12", month := "2024-03", createdAt := "t0", updatedAt := "t0" }

/-- Store exercising the percentage corner cases of claim C7: limit 0 with
50 spent, and limit 100 with 150 spent, all in `"2024-03"`. -/
def fxStorePct : Store :=
  { settings := some (fxSettings "2024-03"), fixedExpenses := [],
    categories := [fxCatZero, fxCat100], expenses := [fxExp50, fxExp150],
    monthlyArchives := [] }

/-- The record `getAllCategoriesWithSpending` produces for `fxCat100` on
`fxStorePct` in `"2024-03"`: 150 spent against a limit of 100, clamped to
a percentage of 100. -/
def fxCat100Spending : CategoryWithSpending :=
  { id := "c3", name := "Coffee", budgetLimit := 100, color := "#fd79a8",
    icon := none, createdAt := "t0", updatedAt := "t0",
    spent := 150, remaining := 100 - 150, percentage := 100, expenseCount := 1 }

/-- The record `getAllCategoriesWithSpending` produces for `fxCatZero` on
`fxStorePct` in `"2024-03"`: 50 spent against a limit of 0. -/
def fxCatZeroSpending : CategoryWithSpending :=
  { id := "c2", name := "Misc", budgetLimit := 0, color := "#6c5ce7",
    icon := none, createdAt := "t0", updatedAt := "t0",
    spent := 50, remaining := 0 - 50, percentage := 0, expenseCount := 1 }

/-- Create input for an expense of 25 dated `"2024-04-02"`. -/
def fxInputApr : ExpenseInput :=
  { categoryId := "c1", description := none, amount := 25, date := some "2024-04-02" }

/-- A patch moving an expense to `"2024-05-06"` while also smuggling in a
bogus `month` value, which `updateExpense` overrides. -/
def fxPatchDate : ExpensePatch :=
  { date := some "2024-05-06", month := some "2024-99" }

/-- `fxExp800` after `updateExpense` with `fxPatchDate` at time `"t2"`. -/
def fxExpMoved : Expense :=
  { fxExp800 with date := "2024-05-06", month := "2024-05", updatedAt := "t2" }

/-- `fxStore` after that update. -/
def fxStoreMoved : Store :=
  { fxStore with expenses := [fxExpMoved] }

/-- A store with no settings record and empty collections (the state of a
fresh database before `initializeSettings`, and the state `importData`
leaves behind for a settings-less backup). -/
def emptyStore : Store :=
  { settings := none, fixedExpenses := [], categories := [], expenses := [],
    monthlyArchives := [] }

/-- An accepted backup document whose `data` object carries no settings
record and empty collections. -/
def fxBackupNoSettings : Backup :=
  { version := 3, exportedAt := "t9", appName := "Presupuesto Base Cero",
    data := some { settings := none, fixedExpenses := some [],
                   categories := some [], expenses := some [],
                   monthlyArchives := some [] } }

-- ==========================================
-- Helper lemmas
-- ==========================================

/-- Every member of a keyed put is an old record or the new record. -/
theorem mem_putKeyed {α : Type} (key : α → String) (l : List α) (a x : α)
    (h : x ∈ putKeyed key l a) : x ∈ l ∨ x = a := by
  unfold putKeyed at h
  split at h
  · rcases List.mem_map.mp h with ⟨y, hy, hxy⟩
    by_cases hk : key y == key a
    · simp only [hk, if_pos] at hxy
      exact Or.inr hxy.symm
    · simp only [hk] at hxy
      simp only [Bool.false_eq_true, if_false] at hxy
      exact Or.inl (hxy ▸ hy)
  · rcases List.mem_append.mp h with h1 | h1
    · exact Or.inl h1
    · simp only [List.mem_singleton] at h1
      exact Or.inr h1

/-- A keyed put whose key is absent appends the record. -/
theorem putKeyed_of_absent {α : Type} (key : α → String) (l : List α) (a : α)
    (h : ∀ y ∈ l, ¬ (key y = key a)) : putKeyed key l a = l ++ [a] := by
  unfold putKeyed
  rw [if_neg]
  simp only [List.any_eq_true, beq_iff_eq, not_exists, not_and]
  exact h

/-- Purging a month then filtering for it yields nothing. -/
theorem filter_purged_month (l : List Expense) (m : String) :
    (l.filter (fun e => !(e.month == m))).filter (fun e => e.month == m) = [] := by
  apply List.filter_eq_nil_iff.mpr
  intro e he
  have h2 := (List.mem_filter.mp he).2
  simp only [Bool.not_eq_true', beq_eq_false_iff_ne, ne_eq] at h2
  simp [h2]

-- ==========================================
-- Claim theorems
-- ==========================================

/-- C4: `deleteCategory` removes the category with the given id together
with every expense referencing it (across all months) in one atomic
transaction (atomic by construction in this pure model: the operation is
a single function producing the final state, mirroring the single
IndexedDB `readwrite` transaction), and every other record — categories
with other ids, expenses of other categories, settings, fixed expenses
and archives — survives unchanged. -/
theorem C4_delete_category_cascade (s : Store) (cid : String) :
    (∀ c : Category, c ∈ (deleteCategory s cid).categories ↔ c ∈ s.categories ∧ c.id ≠ cid)
    ∧ (∀ e : Expense, e ∈ (deleteCategory s cid).expenses ↔ e ∈ s.expenses ∧ e.categoryId ≠ cid)
    ∧ (deleteCategory s cid).settings = s.settings
    ∧ (deleteCategory s cid).fixedExpenses = s.fixedExpenses
    ∧ (deleteCategory s cid).monthlyArchives = s.monthlyArchives := by
  refine ⟨?_, ?_, rfl, rfl, rfl⟩
  · intro c
    simp [deleteCategory, List.mem_filter]
  · intro e
    simp [deleteCategory, List.mem_filter]

/-- C10: when no category carries the requested id,
`getCategoryWithSpending` returns `null` — no throw, no partial record
(the function is a pure read in this model, so the store is untouched by
construction). -/
theorem C10_missing_category_yields_none (s : Store) (nm cid : String)
    (h : ∀ c ∈ s.categories, c.id ≠ cid) :
    getCategoryWithSpending s nm cid = none := by
  have hf : s.categories.find? (fun c => c.id == cid) = none :=
    List.find?_eq_none.mpr (fun c hc => by simpa using h c hc)
  simp [getCategoryWithSpending, getCategory, hf]

/-- Witness for C10 at the running-example store and an unknown id. -/
theorem C10_witness : getCategoryWithSpending fxStore "2024-03" "zzz" = none :=
  C10_missing_category_yields_none fxStore "2024-03" "zzz" (by decide)

/-- A successful `closeMonth` of an unarchived month returns exactly the
store described by `closeMonthStore` and the archive built by
`buildArchive`. -/
theorem closeMonth_ok_of_settings (s : Store) (st : Settings) (nm ni m : String)
    (hset : s.settings = some st) (hm : m ≠ "") (harch : getArchive s m = none) :
    closeMonth s nm ni (some m)
      = .ok (closeMonthStore s st nm ni m, buildArchive s m ni) := by
  have hput : putKeyed MonthlyArchive.id s.monthlyArchives (buildArchive s m ni)
      = s.monthlyArchives ++ [buildArchive s m ni] := by
    apply putKeyed_of_absent
    intro y hy
    have hall := List.find?_eq_none.mp harch y hy
    simpa [buildArchive] using hall
  unfold closeMonth
  simp only [Option.getD_some, jsOrStr, if_neg hm, harch, hput]
  by_cases hnm : m = nm
  · simp [hnm, hset, closeMonthStore, hput]
  · simp [hnm, hset, closeMonthStore, hput]

/-- C1: closing an unarchived month `m` succeeds; the archive's
`summary.totalSaved` is the monthly income minus the fixed-expense total
minus the total of the expenses whose `month` is `m`; afterwards
`getExpensesForMonth m` is empty while the archive holds exactly the
records that had `month = m`, unchanged; and the archive write and the
expense purge are a single transition of the model (one IndexedDB
transaction in the source), so they commit together or — see C2 — not at
all. -/
theorem C1_close_month_conservation (s : Store) (st : Settings) (nm ni m : String)
    (hset : s.settings = some st) (hm : m ≠ "") (harch : getArchive s m = none) :
    closeMonth s nm ni (some m)
      = .ok (closeMonthStore s st nm ni m, buildArchive s m ni)
    ∧ (buildArchive s m ni).summary.totalSaved
        = st.monthlyIncome - sumFixedAmounts s.fixedExpenses
          - sumAmounts (s.expenses.filter (fun e => e.month == m))
    ∧ getExpensesForMonth (closeMonthStore s st nm ni m) nm (some m) = []
    ∧ (buildArchive s m ni).expenses = s.expenses.filter (fun e => e.month == m)
    ∧ getArchive (closeMonthStore s st nm ni m) m = some (buildArchive s m ni) := by
  refine ⟨closeMonth_ok_of_settings s st nm ni m hset hm harch, ?_, ?_, rfl, ?_⟩
  · simp [buildArchive, hset, settingsIncome]
  · simp only [getExpensesForMonth, closeMonthStore, Option.getD_some, jsOrStr,
      if_neg hm]
    exact filter_purged_month s.expenses m
  · have harch2 : s.monthlyArchives.find? (fun a => a.id == m) = none := harch
    simp [getArchive, closeMonthStore, List.find?_append, harch2, buildArchive]

/-- Witness for C1 at the spec's running example (income 5000, fixed 1500,
800 spent in `"2024-03"`), closing `"2024-03"` while the wall clock reads
`"2024-04"`; the archived `totalSaved` is 2700. -/
theorem C1_witness :
    (closeMonth fxStore "2024-04" "t1" (some "2024-03")
      = .ok (closeMonthStore fxStore (fxSettings "2024-03") "2024-04" "t1" "2024-03",
             buildArchive fxStore "2024-03" "t1")
    ∧ (buildArchive fxStore "2024-03" "t1").summary.totalSaved
        = (fxSettings "2024-03").monthlyIncome - sumFixedAmounts fxStore.fixedExpenses
          - sumAmounts (fxStore.expenses.filter (fun e => e.month == "2024-03"))
    ∧ getExpensesForMonth
        (closeMonthStore fxStore (fxSettings "2024-03") "2024-04" "t1" "2024-03")
        "2024-04" (some "2024-03") = []
    ∧ (buildArchive fxStore "2024-03" "t1").expenses
        = fxStore.expenses.filter (fun e => e.month == "2024-03")
    ∧ getArchive (closeMonthStore fxStore (fxSettings "2024-03") "2024-04" "t1" "2024-03")
        "2024-03" = some (buildArchive fxStore "2024-03" "t1"))
    ∧ (buildArchive fxStore "2024-03" "t1").summary.totalSaved = 2700 := by
  refine ⟨C1_close_month_conservation fxStore (fxSettings "2024-03") "2024-04" "t1"
    "2024-03" rfl (by decide) rfl, ?_⟩
  norm_num [buildArchive, fxStore, fxSettings, fxRent, fxExp800, sumAmounts,
    sumFixedAmounts, sumBudgetLimits, settingsIncome, List.filter]

/-- C2: closing a month that already has an archive fails with the
already-closed error, and the observed store afterwards is identical to
the store before the call (the throw precedes every write). -/
theorem C2_close_month_exclusive (s : Store) (nm ni m : String) (a : MonthlyArchive)
    (hm : m ≠ "") (h : getArchive s m = some a) :
    closeMonth s nm ni (some m) = .error .alreadyClosed
    ∧ closeMonthRun s nm ni (some m) = s := by
  have hc : closeMonth s nm ni (some m) = .error .alreadyClosed := by
    simp only [closeMonth, Option.getD, jsOrStr, if_neg hm, h]
  exact ⟨hc, by simp [closeMonthRun, hc]⟩

/-- Witness for C2: re-closing `"2024-03"` on a store that archived it. -/
theorem C2_witness :
    closeMonth fxStoreClosed "2024-03" "t1" (some "2024-03") = .error .alreadyClosed
    ∧ closeMonthRun fxStoreClosed "2024-03" "t1" (some "2024-03") = fxStoreClosed :=
  C2_close_month_exclusive fxStoreClosed "2024-03" "t1" "2024-03" fxArchMar
    (by decide) rfl

/-- C3 (amended): a successful `closeMonth` advances `Settings.currentMonth`
to the next calendar month if and only if the closed month equals the
wall-clock current month `getCurrentMonth()` — not `Settings.currentMonth`
as the claim states (database.js:778 compares `targetMonth ===
getCurrentMonth()`); closing any other unarchived month leaves
`currentMonth` unchanged. -/
theorem C3_rollover_on_wall_clock_month (s : Store) (st : Settings) (nm ni m : String)
    (hset : s.settings = some st) (hm : m ≠ "") (harch : getArchive s m = none) :
    closeMonth s nm ni (some m)
      = .ok (closeMonthStore s st nm ni m, buildArchive s m ni)
    ∧ (m = nm → (closeMonthStore s st nm ni m).settings
        = some { st with currentMonth := nextMonth m, updatedAt := ni })
    ∧ (m ≠ nm → (closeMonthStore s st nm ni m).settings = some st) := by
  refine ⟨closeMonth_ok_of_settings s st nm ni m hset hm harch, ?_, ?_⟩
  · intro h
    simp [closeMonthStore, h]
  · intro h
    simp [closeMonthStore, h]

/-- Counterexample to C3 as stated: with `Settings.currentMonth = "2024-03"`
and the wall clock at `"2024-05"`, closing `"2024-03"` — which *is* the
Settings current month — leaves `currentMonth` at `"2024-03"` instead of
advancing it to `nextMonth "2024-03" = "2024-04"`. -/
theorem C3_counterexample :
    ((closeMonth fxStore "2024-05" "t1" (some "2024-03")).toOption.map
        (fun p => p.1.settings.map Settings.currentMonth)) = some (some "2024-03")
    ∧ nextMonth "2024-03" = "2024-04"
    ∧ ("2024-03" : String) ≠ "2024-04" := by
  exact ⟨rfl, by decide, by decide⟩

/-- Witness for C3 (amended) at the spec's rollover example: closing
`"2024-12"` when the wall clock also reads `"2024-12"` advances
`currentMonth`, and `nextMonth "2024-12" = "2025-01"`. -/
theorem C3_witness :
    (closeMonth fxStoreDec "2024-12" "t1" (some "2024-12")
      = .ok (closeMonthStore fxStoreDec (fxSettings "2024-12") "2024-12" "t1" "2024-12",
             buildArchive fxStoreDec "2024-12" "t1")
    ∧ ("2024-12" = "2024-12" →
        (closeMonthStore fxStoreDec (fxSettings "2024-12") "2024-12" "t1" "2024-12").settings
          = some ({ fxSettings "2024-12" with
                    currentMonth := nextMonth "2024-12", updatedAt := "t1" }))
    ∧ (("2024-12" : String) ≠ "2024-12" →
        (closeMonthStore fxStoreDec (fxSettings "2024-12") "2024-12" "t1" "2024-12").settings
          = some (fxSettings "2024-12")))
    ∧ nextMonth "2024-12" = "2025-01" := by
  refine ⟨C3_rollover_on_wall_clock_month fxStoreDec (fxSettings "2024-12")
    "2024-12" "t1" "2024-12" rfl (by decide) rfl, by decide⟩

/-- The code's clamped percentage agrees with the spec's clamp formula. -/
theorem calcPct_eq_spec (v t : Rat) :
    calculatePercentage v t = specClampPercentage v t := by
  unfold calculatePercentage specClampPercentage
  by_cases ht : t ≤ 0
  · simp [ht]
  · simp only [ht, if_false]
    simp [min_def, max_def]
    split_ifs <;> linarith

/-- The clamped percentage is never negative. -/
theorem calcPct_nonneg (v t : Rat) : 0 ≤ calculatePercentage v t := by
  unfold calculatePercentage
  split
  · norm_num
  · exact le_min (by norm_num) (le_max_left 0 _)

/-- The clamped percentage never exceeds 100. -/
theorem calcPct_le_100 (v t : Rat) : calculatePercentage v t ≤ 100 := by
  unfold calculatePercentage
  split
  · norm_num
  · exact min_le_left 100 _

/-- A successful `closeMonth` returns exactly the archive assembled by
`buildArchive` for the resolved target month. -/
theorem closeMonth_ok_archive (s : Store) (nm ni : String) (mo : Option String)
    (s2 : Store) (a : MonthlyArchive)
    (h : closeMonth s nm ni mo = .ok (s2, a)) :
    a = buildArchive s (jsOrStr (mo.getD "") nm) ni := by
  unfold closeMonth at h
  cases harch : getArchive s (jsOrStr (mo.getD "") nm) with
  | some x =>
    simp only [harch] at h
    exact absurd h (by simp)
  | none =>
    simp only [harch] at h
    split at h
    · cases hset : s.settings with
      | some st =>
        simp only [hset, Except.ok.injEq, Prod.mk.injEq] at h
        exact h.2.symm
      | none =>
        simp only [hset] at h
        exact absurd h (by simp)
    · simp only [Except.ok.injEq, Prod.mk.injEq] at h
      exact h.2.symm

/-- C7 (amended): every percentage returned by the aggregation functions
(`getBudgetOverview`'s three percentage fields,
`getAllCategoriesWithSpending`, `getCategoryWithSpending`,
`getCategoryDistribution`) equals the spec's clamp formula
`clamp(0, 100, value/total*100)` with a non-positive total yielding 0 — in
particular limit 0 with positive spending yields 0 and overspending is
clamped to 100.  The per-category percentage stored in a MonthlyArchive
snapshot, however, is **unclamped**: it equals
`budgetLimit > 0 ? spent / budgetLimit * 100 : 0` (database.js:737) and
exceeds 100 whenever spending exceeds a positive limit. -/
theorem C7_percentage_clamp (v t : Rat) (s : Store) (nm ni cid : String)
    (mo : Option String) :
    (calculatePercentage v t = specClampPercentage v t
      ∧ 0 ≤ calculatePercentage v t ∧ calculatePercentage v t ≤ 100)
    ∧ ((getBudgetOverview s nm).fixedExpensesPercent
        = specClampPercentage (getBudgetOverview s nm).totalFixedExpenses
            (getBudgetOverview s nm).monthlyIncome
      ∧ (getBudgetOverview s nm).budgetedPercent
        = specClampPercentage (getBudgetOverview s nm).totalBudgeted
            (getBudgetOverview s nm).availableForBudget
      ∧ (getBudgetOverview s nm).spentPercent
        = specClampPercentage (getBudgetOverview s nm).totalSpent
            (getBudgetOverview s nm).totalBudgeted)
    ∧ (∀ c ∈ getAllCategoriesWithSpending s nm,
        c.percentage = specClampPercentage c.spent c.budgetLimit)
    ∧ (∀ cd, getCategoryWithSpending s nm cid = some cd →
        cd.percentage = specClampPercentage cd.spent cd.budgetLimit)
    ∧ (∀ it ∈ getCategoryDistribution s nm,
        0 ≤ it.percentage ∧ it.percentage ≤ 100)
    ∧ (∀ s2 a, closeMonth s nm ni mo = .ok (s2, a) →
        ∀ cs ∈ a.categories,
          cs.percentage
            = if 0 < cs.budgetLimit then cs.spent / cs.budgetLimit * 100 else 0) := by
  refine ⟨⟨calcPct_eq_spec v t, calcPct_nonneg v t, calcPct_le_100 v t⟩,
    ⟨calcPct_eq_spec _ _, calcPct_eq_spec _ _, calcPct_eq_spec _ _⟩, ?_, ?_, ?_, ?_⟩
  · intro c hc
    rcases List.mem_map.mp hc with ⟨cat, hcat, rfl⟩
    exact calcPct_eq_spec _ _
  · intro cd hcd
    unfold getCategoryWithSpending at hcd
    cases hfind : getCategory s cid with
    | none =>
      simp only [hfind] at hcd
      exact Option.noConfusion hcd
    | some cat =>
      simp only [hfind, Option.some.injEq] at hcd
      subst hcd
      exact calcPct_eq_spec _ _
  · intro it hit
    rcases List.mem_map.mp hit with ⟨c, hc, rfl⟩
    have hc2 := (List.mem_filter.mp hc).1
    rcases List.mem_map.mp hc2 with ⟨cat, hcat, rfl⟩
    exact ⟨calcPct_nonneg _ _, calcPct_le_100 _ _⟩
  · intro s2 a h cs hcs
    have ha := closeMonth_ok_archive s nm ni mo s2 a h
    subst ha
    rcases List.mem_map.mp hcs with ⟨cat, hcat, rfl⟩
    rfl

/-- Counterexample to C7 as stated: closing `"2024-03"` on a store whose
`"Coffee"` category has limit 100 and 150 spent stores an archive
snapshot percentage of 150 — above 100 and different from the clamp
formula, which gives 100. -/
theorem C7_counterexample :
    closeMonth fxStorePct "2024-05" "t1" (some "2024-03")
      = .ok (closeMonthStore fxStorePct (fxSettings "2024-03") "2024-05" "t1" "2024-03",
             buildArchive fxStorePct "2024-03" "t1")
    ∧ (buildArchive fxStorePct "2024-03" "t1").categories.map CategorySnapshot.percentage
        = [0, 150]
    ∧ specClampPercentage 150 100 = 100
    ∧ ((150 : Rat) ≠ 100) := by
  refine ⟨closeMonth_ok_of_settings fxStorePct (fxSettings "2024-03") "2024-05" "t1"
    "2024-03" rfl (by decide) rfl, ?_, by norm_num [specClampPercentage], by norm_num⟩
  have h23 : (("c2" : String) = "c3") = False := eq_false (by decide)
  have h32 : (("c3" : String) = "c2") = False := eq_false (by decide)
  norm_num [buildArchive, snapshotCategory, sumAmounts, fxStorePct, fxCatZero,
    fxCat100, fxExp50, fxExp150, List.filter_cons, List.filter_nil, h23, h32]

/-- Witness for C7 (amended): the clamp formula at spent 50 / limit 0, and
the clamped record `getAllCategoriesWithSpending` produces for 150 spent
against limit 100 on the concrete percentage store. -/
theorem C7_witness :
    (calculatePercentage 50 0 = specClampPercentage 50 0
      ∧ 0 ≤ calculatePercentage 50 0 ∧ calculatePercentage 50 0 ≤ 100)
    ∧ fxCat100Spending.percentage
        = specClampPercentage fxCat100Spending.spent fxCat100Spending.budgetLimit := by
  refine ⟨(C7_percentage_clamp 50 0 fxStorePct "2024-03" "t1" "c3" none).1, ?_⟩
  refine (C7_percentage_clamp 50 0 fxStorePct "2024-03" "t1" "c3" none).2.2.1
    fxCat100Spending ?_
  simp [getAllCategoriesWithSpending, getExpensesForMonth, jsOrStr, fxStorePct,
    fxCatZero, fxCat100, fxExp50, fxExp150, fxCat100Spending, sumAmounts,
    calculatePercentage, List.filter_cons, List.filter_nil]
  decide

/-- C9 (amended): the five read functions take **no** target-month
parameter (their JS signatures have none, so a month passed by a caller
is silently ignored); each always computes over the wall-clock current
month `getCurrentMonth()`: the overview's spent total and every
per-category spent figure are sums over `getExpensesForMonth` of the
wall-clock month, and the distribution and budget-vs-actual views are
derived from those same per-category figures. -/
theorem C9_aggregation_wall_clock_month (s : Store) (nm cid : String) :
    (getBudgetOverview s nm).totalSpent = sumAmounts (getExpensesForMonth s nm none)
    ∧ (∀ c ∈ getAllCategoriesWithSpending s nm,
        c.spent = sumAmounts ((getExpensesForMonth s nm none).filter
          (fun e => e.categoryId == c.id)))
    ∧ (∀ cd, getCategoryWithSpending s nm cid = some cd →
        cd.spent = sumAmounts ((getExpensesForMonth s nm none).filter
          (fun e => e.categoryId == cid)))
    ∧ getCategoryDistribution s nm
        = ((getAllCategoriesWithSpending s nm).filter (fun c => decide (0 < c.spent))).map
            (fun c => { name := c.name, value := c.spent, color := c.color,
                        percentage := c.percentage })
    ∧ getBudgetVsActual s nm
        = (getAllCategoriesWithSpending s nm).map
            (fun c => { name := c.name, budget := c.budgetLimit, actual := c.spent,
                        color := c.color }) := by
  refine ⟨rfl, ?_, ?_, rfl, rfl⟩
  · intro c hc
    rcases List.mem_map.mp hc with ⟨cat, hcat, rfl⟩
    rfl
  · intro cd hcd
    unfold getCategoryWithSpending at hcd
    cases hfind : getCategory s cid with
    | none =>
      simp only [hfind] at hcd
      exact Option.noConfusion hcd
    | some cat =>
      simp only [hfind, Option.some.injEq] at hcd
      subst hcd
      rfl

/-- Counterexample to C9 as stated: with `Settings.currentMonth = "2024-03"`
holding an 800 expense and the wall clock at `"2024-05"`,
`getBudgetOverview` — which per the claim should default to the Store's
current month — reports `totalSpent = 0`, not the 800 spent in the
month it itself reports as `currentMonth`. -/
theorem C9_counterexample :
    (getBudgetOverview fxStore "2024-05").totalSpent = 0
    ∧ (getBudgetOverview fxStore "2024-05").currentMonth = "2024-03"
    ∧ sumAmounts (fxStore.expenses.filter (fun e => e.month == "2024-03")) = 800
    ∧ ((0 : Rat) ≠ 800) := by
  refine ⟨rfl, rfl, ?_, by norm_num⟩
  norm_num [fxStore, fxExp800, sumAmounts, List.filter_cons, List.filter_nil]

/-- Witness for C9 (amended): the concrete percentage store at the
wall-clock month `"2024-03"`; the zero-limit category's record sums the
month's expenses referencing it, and the overview's spent total sums the
month's expenses. -/
theorem C9_witness :
    (getBudgetOverview fxStorePct "2024-03").totalSpent
      = sumAmounts (getExpensesForMonth fxStorePct "2024-03" none)
    ∧ fxCatZeroSpending.spent
      = sumAmounts ((getExpensesForMonth fxStorePct "2024-03" none).filter
          (fun e => e.categoryId == fxCatZeroSpending.id)) := by
  refine ⟨(C9_aggregation_wall_clock_month fxStorePct "2024-03" "c2").1, ?_⟩
  refine (C9_aggregation_wall_clock_month fxStorePct "2024-03" "c2").2.1
    fxCatZeroSpending ?_
  simp [getAllCategoriesWithSpending, getExpensesForMonth, jsOrStr, fxStorePct,
    fxCatZero, fxCat100, fxExp50, fxExp150, fxCatZeroSpending, sumAmounts,
    calculatePercentage, List.filter_cons, List.filter_nil]

/-- Splitting a list that starts with a separator-free prefix peels the
prefix off as the first fragment. -/
theorem splitChars_prefix (sep : Char) (y t : List Char) (hy : sep ∉ y) :
    splitChars sep (y ++ sep :: t) = y :: splitChars sep t := by
  induction y with
  | nil => simp [splitChars]
  | cons c y ih =>
    have hc : ¬ (c = sep) := fun h => hy (h ▸ List.mem_cons_self c y)
    have ih2 := ih (fun h => hy (List.mem_cons_of_mem c h))
    simp only [List.cons_append, splitChars, if_neg hc, List.append_eq, ih2]

/-- A well-formed date is non-empty. -/
theorem validDate_ne_empty (d : String) (h : validDate d) : d ≠ "" := by
  obtain ⟨y, m, r, hd, hy4, _, _, _⟩ := h
  intro he
  subst he
  have : ([] : List Char) = y ++ '-' :: (m ++ '-' :: r) := hd
  have hlen := congrArg List.length this
  simp [hy4] at hlen
  omega

/-- On a well-formed `YYYY-MM-DD` date, the `month` the store derives by
splitting at dashes equals the date's first seven characters
(`date.slice(0, 7)`). -/
theorem deriveMonth_valid (d : String) (h : validDate d) :
    deriveMonth d = jsSlice 7 d := by
  obtain ⟨y, m, r, hd, hy4, hm2, hyn, hmn⟩ := h
  unfold deriveMonth jsSplit jsSlice
  rw [hd, splitChars_prefix '-' y (m ++ '-' :: r) hyn,
    splitChars_prefix '-' m r hmn]
  simp only [List.map_cons]
  apply String.ext
  simp only [String.data_append]
  have h7 : (7 : Nat) = y.length + 3 := by omega
  rw [h7, List.take_append 3, List.take_succ_cons,
    List.take_left' hm2]
  simp

/-- C5: if every expense satisfies `month = date.slice(0, 7)`, then after a
`createExpense` whose effective date is well-formed, and after any
`updateExpense` whose patch carries only well-formed dates — regardless
of any `month` value smuggled into the patch — every expense still does:
`month` is recomputed from the date on both paths and a patched `month`
is overridden. -/
theorem C5_month_partition_invariant (s : Store) (ni nid eid : String)
    (data : ExpenseInput) (p : ExpensePatch)
    (hs : ∀ e ∈ s.expenses, e.month = jsSlice 7 e.date) :
    (validDate (effectiveExpenseDate ni data.date) →
      ∀ e ∈ (createExpense s ni nid data).1.expenses, e.month = jsSlice 7 e.date)
    ∧ ((∀ d, p.date = some d → validDate d) →
      ∀ s2 e2, updateExpense s ni eid p = .ok (s2, e2) →
        ∀ e ∈ s2.expenses, e.month = jsSlice 7 e.date) := by
  constructor
  · intro hv e he
    rcases List.mem_append.mp he with h1 | h1
    · exact hs e h1
    · simp only [List.mem_singleton] at h1
      subst h1
      exact deriveMonth_valid _ hv
  · intro hv s2 e2 hok e he
    unfold updateExpense at hok
    cases hfind : s.expenses.find? (fun e => e.id == eid) with
    | none =>
      simp only [hfind] at hok
      exact absurd hok (by simp)
    | some cur =>
      have hcur : cur ∈ s.expenses := List.mem_of_find?_eq_some hfind
      simp only [hfind, Except.ok.injEq, Prod.mk.injEq] at hok
      obtain ⟨hs2, _⟩ := hok
      subst hs2
      rcases mem_putKeyed Expense.id s.expenses _ e he with h1 | h1
      · exact hs e h1
      · subst h1
        cases hpd : p.date with
        | none =>
          simp only [hpd, Option.getD_none]
          exact hs cur hcur
        | some d =>
          have hvd := hv d hpd
          have hne : ¬ (d = "") := validDate_ne_empty d hvd
          simp only [hpd, Option.getD_some, if_neg hne]
          exact deriveMonth_valid d hvd

/-- Witness for C5: creating an expense dated `"2024-04-02"` on the
running-example store yields `month = "2024-04"`, and updating the 800
expense to `"2024-05-06"` with a patch that also smuggles
`month = "2024-99"` recomputes `month = "2024-05"`. -/
theorem C5_witness :
    (createExpense fxStore "2024-04-02T09:00:00.000Z" "e9" fxInputApr).2.month
        = jsSlice 7 (createExpense fxStore "2024-04-02T09:00:00.000Z" "e9" fxInputApr).2.date
    ∧ fxExpMoved.month = jsSlice 7 fxExpMoved.date
    ∧ updateExpense fxStore "t2" "e1" fxPatchDate = .ok (fxStoreMoved, fxExpMoved) := by
  have hs : ∀ e ∈ fxStore.expenses, e.month = jsSlice 7 e.date := by decide
  have hvApr : validDate (effectiveExpenseDate "2024-04-02T09:00:00.000Z" fxInputApr.date) :=
    ⟨['2','0','2','4'], ['0','4'], ['0','2'], by decide, by decide, by decide,
      by decide, by decide⟩
  have hvMay : ∀ d, fxPatchDate.date = some d → validDate d := by
    intro d hd
    have hd2 : d = "2024-05-06" := by
      simpa [fxPatchDate] using hd.symm
    subst hd2
    exact ⟨['2','0','2','4'], ['0','5'], ['0','6'], by decide, by decide, by decide,
      by decide, by decide⟩
  have hok : updateExpense fxStore "t2" "e1" fxPatchDate = .ok (fxStoreMoved, fxExpMoved) :=
    rfl
  refine ⟨?_, ?_, hok⟩
  · exact (C5_month_partition_invariant fxStore "2024-04-02T09:00:00.000Z" "e9" "e1"
      fxInputApr fxPatchDate hs).1 hvApr
      (createExpense fxStore "2024-04-02T09:00:00.000Z" "e9" fxInputApr).2
      (List.mem_append.mpr (Or.inr (List.mem_singleton.mpr rfl)))
  · exact (C5_month_partition_invariant fxStore "t2" "e9" "e1"
      fxInputApr fxPatchDate hs).2 hvMay fxStoreMoved fxExpMoved hok
      fxExpMoved (by decide)

/-- C6 (amended): `initializeSettings` guarantees the singleton after the
first store access, and every store operation preserves its existence —
**except** `importData`, which restores settings only when the accepted
backup document itself carries a settings record: importing a document
whose `data` lacks `settings` (accepted, since only the `data` key is
validated) leaves the store with no Settings record. -/
theorem C6_settings_singleton :
    (∀ (s : Store) (nm ni : String), (ensureSettings s nm ni).settings.isSome = true)
    ∧ (∀ (s : Store) (ni : String) (p : SettingsPatch) (s2 : Store) (st2 : Settings),
        updateSettings s ni p = .ok (s2, st2) → s2.settings.isSome = true)
    ∧ (∀ (s : Store) (ni nid : String) (d : FixedExpenseInput),
        (createFixedExpense s ni nid d).1.settings = s.settings)
    ∧ (∀ (s : Store) (ni id : String) (p : FixedExpensePatch) (s2 : Store) (x : FixedExpense),
        updateFixedExpense s ni id p = .ok (s2, x) → s2.settings = s.settings)
    ∧ (∀ (s : Store) (id : String), (deleteFixedExpense s id).settings = s.settings)
    ∧ (∀ (s : Store) (ni nid : String) (d : CategoryInput),
        (createCategory s ni nid d).1.settings = s.settings)
    ∧ (∀ (s : Store) (ni id : String) (p : CategoryPatch) (s2 : Store) (x : Category),
        updateCategory s ni id p = .ok (s2, x) → s2.settings = s.settings)
    ∧ (∀ (s : Store) (id : String), (deleteCategory s id).settings = s.settings)
    ∧ (∀ (s : Store) (ni nid : String) (d : ExpenseInput),
        (createExpense s ni nid d).1.settings = s.settings)
    ∧ (∀ (s : Store) (ni id : String) (p : ExpensePatch) (s2 : Store) (x : Expense),
        updateExpense s ni id p = .ok (s2, x) → s2.settings = s.settings)
    ∧ (∀ (s : Store) (id : String), (deleteExpense s id).settings = s.settings)
    ∧ (∀ (s : Store) (m : String), (deleteArchive s m).settings = s.settings)
    ∧ (∀ (s : Store) (nm ni : String) (mo : Option String) (s2 : Store) (a : MonthlyArchive),
        s.settings.isSome = true → closeMonth s nm ni mo = .ok (s2, a) →
          s2.settings.isSome = true)
    ∧ (∀ (s : Store) (b : Backup) (d : BackupData) (s2 : Store),
        importData s b = .ok s2 → b.data = some d → s2.settings = d.settings) := by
  refine ⟨?_, ?_, fun _ _ _ _ => rfl, ?_, fun _ _ => rfl, fun _ _ _ _ => rfl, ?_,
    fun _ _ => rfl, fun _ _ _ _ => rfl, ?_, fun _ _ => rfl, fun _ _ => rfl, ?_, ?_⟩
  · intro s nm ni
    cases hset : s.settings with
    | some st => simp [ensureSettings, hset]
    | none => simp [ensureSettings, hset]
  · intro s ni p s2 st2 hok
    unfold updateSettings at hok
    cases hset : s.settings with
    | none =>
      simp only [hset] at hok
      exact absurd hok (by simp)
    | some cur =>
      simp only [hset, Except.ok.injEq, Prod.mk.injEq] at hok
      obtain ⟨h1, _⟩ := hok
      subst h1
      rfl
  · intro s ni id p s2 x hok
    unfold updateFixedExpense at hok
    cases hf : s.fixedExpenses.find? (fun e => e.id == id) with
    | none =>
      simp only [hf] at hok
      exact absurd hok (by simp)
    | some cur =>
      simp only [hf, Except.ok.injEq, Prod.mk.injEq] at hok
      obtain ⟨h1, _⟩ := hok
      subst h1
      rfl
  · intro s ni id p s2 x hok
    unfold updateCategory at hok
    cases hf : s.categories.find? (fun c => c.id == id) with
    | none =>
      simp only [hf] at hok
      exact absurd hok (by simp)
    | some cur =>
      simp only [hf, Except.ok.injEq, Prod.mk.injEq] at hok
      obtain ⟨h1, _⟩ := hok
      subst h1
      rfl
  · intro s ni id p s2 x hok
    unfold updateExpense at hok
    cases hf : s.expenses.find? (fun e => e.id == id) with
    | none =>
      simp only [hf] at hok
      exact absurd hok (by simp)
    | some cur =>
      simp only [hf, Except.ok.injEq, Prod.mk.injEq] at hok
      obtain ⟨h1, _⟩ := hok
      subst h1
      rfl
  · intro s nm ni mo s2 a hsome hok
    unfold closeMonth at hok
    cases harch : getArchive s (jsOrStr (mo.getD "") nm) with
    | some x =>
      simp only [harch] at hok
      exact absurd hok (by simp)
    | none =>
      simp only [harch] at hok
      split at hok
      · cases hset : s.settings with
        | some st =>
          simp only [hset, Except.ok.injEq, Prod.mk.injEq] at hok
          obtain ⟨h1, _⟩ := hok
          subst h1
          rfl
        | none =>
          simp only [hset] at hok
          exact absurd hok (by simp)
      · simp only [Except.ok.injEq, Prod.mk.injEq] at hok
        obtain ⟨h1, _⟩ := hok
        subst h1
        simpa using hsome
  · intro s b d s2 hok hdata
    unfold importData at hok
    rw [hdata] at hok
    simp only [Except.ok.injEq] at hok
    subst hok
    cases d.settings <;> rfl

/-- Counterexample to C6 as stated: importing the accepted document
`fxBackupNoSettings` (it has a `data` key, so `importData` does not
reject it) into the running-example store clears the Settings singleton
and restores nothing in its place. -/
theorem C6_counterexample :
    importData fxStore fxBackupNoSettings = .ok emptyStore
    ∧ emptyStore.settings = none
    ∧ fxStore.settings.isSome = true :=
  ⟨rfl, rfl, rfl⟩

/-- Witness for C6 (amended): initializing an empty store creates the
singleton; deleting a category keeps it; and importing a document that
does carry settings restores exactly them. -/
theorem C6_witness :
    (ensureSettings emptyStore "2024-03" "t0").settings.isSome = true
    ∧ (deleteCategory fxStore "c1").settings = fxStore.settings
    ∧ fxStore.settings
        = (BackupData.mk (some (fxSettings "2024-03")) (some [fxRent]) (some [fxFood])
            (some [fxExp800]) (some [])).settings := by
  refine ⟨C6_settings_singleton.1 emptyStore "2024-03" "t0",
    (C6_settings_singleton.2.2.2.2.2.2.2.1) fxStore "c1", ?_⟩
  exact (C6_settings_singleton.2.2.2.2.2.2.2.2.2.2.2.2.2)
    fxStore (exportData fxStore "t3")
    (BackupData.mk (some (fxSettings "2024-03")) (some [fxRent]) (some [fxFood])
      (some [fxExp800]) (some []))
    fxStore rfl rfl

/-- Re-inserting records with pairwise-distinct keys by keyed `put`
reproduces the list. -/
theorem foldl_putKeyed {α : Type} (key : α → String) (l : List α) :
    ∀ acc : List α, (((acc ++ l).map key).Nodup) →
      l.foldl (putKeyed key) acc = acc ++ l := by
  induction l with
  | nil =>
    intro acc _
    simp
  | cons x xs ih =>
    intro acc h
    have h3 := List.nodup_append.mp (by simpa using h)
    have hx : ∀ y ∈ acc, ¬ (key y = key x) := by
      intro y hy hk
      exact h3.2.2 (List.mem_map_of_mem key hy) (by simp [hk])
    have h2 : (((acc ++ [x]) ++ xs).map key).Nodup := by
      have e : (acc ++ [x]) ++ xs = acc ++ x :: xs := by simp
      rw [e]
      exact h
    rw [List.foldl_cons, putKeyed_of_absent key acc x hx, ih (acc ++ [x]) h2]
    simp

/-- C8: exporting a store and importing the document into any store
reproduces the original five collections exactly (the ids of a real
store are unique, which the hypotheses record); the `version`,
`exportedAt` and `appName` metadata of the document play no role in the
restored state. -/
theorem C8_export_import_roundtrip (s t : Store) (ni : String)
    (h1 : (s.fixedExpenses.map FixedExpense.id).Nodup)
    (h2 : (s.categories.map Category.id).Nodup)
    (h3 : (s.expenses.map Expense.id).Nodup)
    (h4 : (s.monthlyArchives.map MonthlyArchive.id).Nodup) :
    importData t (exportData s ni)
      = .ok { settings := s.settings, fixedExpenses := s.fixedExpenses,
              categories := s.categories, expenses := s.expenses,
              monthlyArchives := s.monthlyArchives } := by
  have e1 := foldl_putKeyed FixedExpense.id s.fixedExpenses [] (by simpa using h1)
  have e2 := foldl_putKeyed Category.id s.categories [] (by simpa using h2)
  have e3 := foldl_putKeyed Expense.id s.expenses [] (by simpa using h3)
  have e4 := foldl_putKeyed MonthlyArchive.id s.monthlyArchives [] (by simpa using h4)
  unfold importData exportData
  cases hset : s.settings with
  | some st => simp [hset, e1, e2, e3, e4]
  | none => simp [hset, e1, e2, e3, e4]

/-- Witness for C8: round-tripping the running-example store through
export/import into the store that had archived `"2024-03"` restores the
running-example collections. -/
theorem C8_witness :
    importData fxStoreClosed (exportData fxStore "t3")
      = .ok { settings := fxStore.settings, fixedExpenses := fxStore.fixedExpenses,
              categories := fxStore.categories, expenses := fxStore.expenses,
              monthlyArchives := fxStore.monthlyArchives } :=
  C8_export_import_roundtrip fxStore fxStoreClosed "t3"
    (by decide) (by decide) (by decide) (by decide)

end Budget
